import Mathlib

/-
  Verification development for the libmicrovmi VMI abstraction layer.

  Shallow embedding of:
    - src/api.rs          : the neutral data model (CrType, InterceptType,
                            EventType, Event, EventReplyType, X86Registers,
                            Registers) and the Introspectable trait defaults.
    - src/driver/kvm.rs   : the Kvm driver (state: expect_pause_ev counter and
                            the per-VCPU vec_events slots) and its operations
                            new / pause / resume / toggle_intercept / listen /
                            reply_event / read_registers / Drop.
    - src/driver/virtualbox.rs : the VBox driver, which leaves the event
                            operations to the trait defaults.

  The kvmi collaborator (the wire protocol to the hypervisor) is out of the
  repository; its responses enter each operation as explicit parameters
  (wait_and_pop_event results, init results, control_events results), and the
  calls an operation issues to it are collected in a List BackendCall so that
  theorems can speak about which backend requests were made.  An Except error
  with constructor ioError models a Rust Err propagated with the question-mark
  operator; constructor panicked models a Rust panic (unwrap on None or Err,
  the panic macro, the unimplemented macro, an out-of-bounds Vec index).
-/

/-- CrType from src/api.rs lines 181 to 188: the public control-register tags,
including Cr2. -/
inductive CrType where
  | Cr0
  | Cr2
  | Cr3
  | Cr4
  deriving DecidableEq

/-- InterceptType from src/api.rs: currently only control-register traps. -/
inductive InterceptType where
  | Cr (cr : CrType)
  deriving DecidableEq

/-- EventType from src/api.rs: a control-register write with its new and old
values. -/
inductive EventType where
  | Cr (cr_type : CrType) (new : Nat) (old : Nat)
  deriving DecidableEq

/-- Event from src/api.rs: the VCPU index and the event kind. -/
structure Event where
  vcpu : Nat
  kind : EventType
  deriving DecidableEq

/-- EventReplyType from src/api.rs. -/
inductive EventReplyType where
  | Continue
  deriving DecidableEq

/-- segment_reg from src/api.rs lines 47 to 51. -/
structure segment_reg where
  base : Nat
  limit : Nat
  selector : Nat
  deriving DecidableEq

/-- X86Registers from src/api.rs lines 55 to 96: the full x86 snapshot type of
the data model (general-purpose registers, CR0/CR2/CR3/CR4, sysenter and
syscall MSRs, efer, apic_base, and the eight segment descriptors). -/
structure X86Registers where
  rax : Nat
  rbx : Nat
  rcx : Nat
  rdx : Nat
  rsi : Nat
  rdi : Nat
  rsp : Nat
  rbp : Nat
  r8 : Nat
  r9 : Nat
  r10 : Nat
  r11 : Nat
  r12 : Nat
  r13 : Nat
  r14 : Nat
  r15 : Nat
  rip : Nat
  rflags : Nat
  cr0 : Nat
  cr2 : Nat
  cr3 : Nat
  cr4 : Nat
  sysenter_cs : Nat
  sysenter_esp : Nat
  sysenter_eip : Nat
  msr_efer : Nat
  msr_star : Nat
  msr_lstar : Nat
  efer : Nat
  apic_base : Nat
  cs : segment_reg
  ds : segment_reg
  es : segment_reg
  fs : segment_reg
  gs : segment_reg
  ss : segment_reg
  tr : segment_reg
  ldt : segment_reg
  deriving DecidableEq

/-- Registers from src/api.rs lines 100 to 102. -/
inductive Registers where
  | X86 (regs : X86Registers)
  deriving DecidableEq

/-- KVMiCr from the kvmi collaborator crate: the native control-register tags
the KVM driver translates to and from (only Cr0, Cr3, Cr4 exist natively). -/
inductive KVMiCr where
  | Cr0
  | Cr3
  | Cr4
  deriving DecidableEq

/-- KVMiEventType from the kvmi collaborator crate, restricted to the
constructors src/driver/kvm.rs matches on: the pause acknowledgement, the
control-register write, and Other standing for every further native kind
(which kvm.rs sends to the unimplemented macro). -/
inductive KVMiEventType where
  | PauseVCPU
  | Cr (cr_type : KVMiCr) (new : Nat) (old : Nat)
  | Other
  deriving DecidableEq

/-- KVMiEvent: the native event, with the fields kvm.rs reads (vcpu, ev_type). -/
structure KVMiEvent where
  vcpu : Nat
  ev_type : KVMiEventType
  deriving DecidableEq

/-- KVMiEventReply from the kvmi collaborator crate. -/
inductive KVMiEventReply where
  | Continue
  deriving DecidableEq

/-- KVMiInterceptType from the kvmi collaborator crate (kvm.rs uses only Cr). -/
inductive KVMiInterceptType where
  | Cr
  deriving DecidableEq

/-- One call issued by the Kvm driver to the kvmi backend.  Query calls whose
answers are modelled as parameters (get_vcpu_count, get_registers) are not
recorded; the recorded calls are the ones the claims count. -/
inductive BackendCall where
  | pauseReq
  | waitAndPop (timeout_ms : Nat)
  | reply (ev : KVMiEvent) (r : KVMiEventReply)
  | controlCr (vcpu : Nat) (reg : KVMiCr) (enabled : Bool)
  | controlEvents (vcpu : Nat) (it : KVMiInterceptType) (enabled : Bool)
  deriving DecidableEq

/-- Failure of a driver operation: ioError is a Rust Err propagated to the
caller with the question-mark operator; panicked is a Rust panic (fatal). -/
inductive RtError where
  | ioError (msg : String)
  | panicked (msg : String)
  deriving DecidableEq

/-- The mutable state of the Kvm driver, src/driver/kvm.rs lines 15 to 21:
the outstanding pause-acknowledgement counter and the per-VCPU pending-event
slots. -/
structure KvmState where
  expect_pause_ev : Nat
  vec_events : List (Option KVMiEvent)
  deriving DecidableEq

/-- Read of vec_events at an index, as Rust Vec indexing (returns the slot
content; callers guard the bound, an out-of-bounds read is a panic at the use
site). -/
def slotGet : List (Option KVMiEvent) → Nat → Option KVMiEvent
  | [], _ => none
  | x :: _, 0 => x
  | _ :: xs, n + 1 => slotGet xs n

/-- Write of vec_events at an index, as the Rust assignment
vec_events[i] = v (callers guard the bound). -/
def slotSet : List (Option KVMiEvent) → Nat → Option KVMiEvent → List (Option KVMiEvent)
  | [], _, _ => []
  | _ :: xs, 0, v => v :: xs
  | x :: xs, n + 1, v => x :: slotSet xs n v

/-- True when the pending-event slot of the given VCPU holds an event. -/
def slotOccupied (s : KvmState) (v : Nat) : Bool :=
  (slotGet s.vec_events v).isSome

/-- Kvm::new, src/driver/kvm.rs lines 24 to 48: after a successful kvmi init,
the state starts with a zero pause counter and one empty slot per VCPU, and a
control_events(vcpu, Cr, true) call is issued for every VCPU.  The initResult
parameter is the outcome of kvmi.init (propagated as an error when it fails);
vcpu_count is the answer of kvmi.get_vcpu_count. -/
def Kvm.new (initResult : Except String Unit) (vcpu_count : Nat) :
    Except RtError KvmState × List BackendCall :=
  match initResult with
  | .error e => (.error (.ioError e), [])
  | .ok _ =>
    (.ok { expect_pause_ev := 0, vec_events := List.replicate vcpu_count none },
     (List.range vcpu_count).map (fun vcpu => BackendCall.controlEvents vcpu .Cr true))

/-- Kvm::pause, src/driver/kvm.rs lines 96 to 107: a no-op when the counter is
positive, otherwise one kvmi.pause request and the counter is set to the
current VCPU count (the answer of kvmi.get_vcpu_count, passed as a parameter;
the success path of both backend calls is modelled). -/
def Kvm.pause (vcpu_count : Nat) (s : KvmState) : KvmState × List BackendCall :=
  if s.expect_pause_ev > 0 then (s, [])
  else ({ s with expect_pause_ev := vcpu_count }, [BackendCall.pauseReq])

/-- The drain loop of Kvm::resume, src/driver/kvm.rs lines 116 to 130, indexed
by the current counter value.  Each iteration consumes the next
wait_and_pop_event answer (waits; an exhausted list stands for a timeout
answer of Ok(None)): an Err propagates, Ok(None) is an unwrap panic, a
PauseVCPU event decrements and gets a Continue reply, any other event kind is
the panic of the catch-all match arm. -/
def Kvm.resumeDrain : Nat → List (Except String (Option KVMiEvent)) →
    Except RtError Unit × List BackendCall
  | 0, _ => (.ok (), [])
  | n + 1, waits =>
    match waits.headD (.ok none) with
    | .error e => (.error (.ioError e), [BackendCall.waitAndPop 1000])
    | .ok none => (.error (.panicked "called unwrap on a None value"), [BackendCall.waitAndPop 1000])
    | .ok (some kvmi_event) =>
      match kvmi_event.ev_type with
      | .PauseVCPU =>
        ((Kvm.resumeDrain n waits.tail).1,
         BackendCall.waitAndPop 1000 :: BackendCall.reply kvmi_event .Continue
           :: (Kvm.resumeDrain n waits.tail).2)
      | _ => (.error (.panicked "Unexpected event type while resuming VM"), [BackendCall.waitAndPop 1000])

/-- Kvm::resume, src/driver/kvm.rs lines 109 to 132: a no-op when the counter
is zero, otherwise the drain loop runs and on success the counter is zero and
the slots are untouched. -/
def Kvm.resume (waits : List (Except String (Option KVMiEvent))) (s : KvmState) :
    Except RtError KvmState × List BackendCall :=
  if s.expect_pause_ev = 0 then (.ok s, [])
  else
    match (Kvm.resumeDrain s.expect_pause_ev waits).1 with
    | .ok _ => (.ok { s with expect_pause_ev := 0 }, (Kvm.resumeDrain s.expect_pause_ev waits).2)
    | .error e => (.error e, (Kvm.resumeDrain s.expect_pause_ev waits).2)

/-- Kvm::toggle_intercept, src/driver/kvm.rs lines 134 to 150: Cr0, Cr3 and
Cr4 translate to a control_cr call; the public CrType also has Cr2, for which
the match in kvm.rs has no arm, so that case is the unreachable branch of a
total embedding (an error, no backend call). -/
def Kvm.toggle_intercept (vcpu : Nat) (intercept_type : InterceptType) (enabled : Bool) :
    Except RtError Unit × List BackendCall :=
  match intercept_type with
  | .Cr micro_cr_type =>
    match micro_cr_type with
    | .Cr0 => (.ok (), [BackendCall.controlCr vcpu .Cr0 enabled])
    | .Cr3 => (.ok (), [BackendCall.controlCr vcpu .Cr3 enabled])
    | .Cr4 => (.ok (), [BackendCall.controlCr vcpu .Cr4 enabled])
    | .Cr2 => (.error (.panicked "no match arm for CrType Cr2"), [])

/-- The native-to-neutral control-register translation inside Kvm::listen,
src/driver/kvm.rs lines 161 to 165 (total over the three native tags). -/
def kvmiCrToMicro : KVMiCr → CrType
  | .Cr0 => .Cr0
  | .Cr3 => .Cr3
  | .Cr4 => .Cr4

/-- Kvm::listen, src/driver/kvm.rs lines 152 to 183: one wait_and_pop_event
call (its answer is the waitResult parameter); None maps to Ok(None); a Cr
event is translated, stored into the vec_events slot of its VCPU (a Rust
index panic when the VCPU is out of range of the Vec) and returned; a
PauseVCPU event is the explicit panic of kvm.rs; every other native kind is
the unimplemented macro. -/
def Kvm.listen (timeout : Nat) (waitResult : Except String (Option KVMiEvent)) (s : KvmState) :
    Except RtError (KvmState × Option Event) × List BackendCall :=
  match waitResult with
  | .error e => (.error (.ioError e), [BackendCall.waitAndPop timeout])
  | .ok none => (.ok (s, none), [BackendCall.waitAndPop timeout])
  | .ok (some kvmi_event) =>
    match kvmi_event.ev_type with
    | .Cr cr_type new old =>
      if kvmi_event.vcpu < s.vec_events.length then
        (.ok ({ s with vec_events := slotSet s.vec_events kvmi_event.vcpu (some kvmi_event) },
              some { vcpu := kvmi_event.vcpu, kind := .Cr (kvmiCrToMicro cr_type) new old }),
         [BackendCall.waitAndPop timeout])
      else (.error (.panicked "index out of bounds"), [BackendCall.waitAndPop timeout])
    | .PauseVCPU =>
      (.error (.panicked "Unexpected PauseVCPU event: it should have been popped by resume"),
       [BackendCall.waitAndPop timeout])
    | .Other => (.error (.panicked "not implemented"), [BackendCall.waitAndPop timeout])

/-- Kvm::reply_event, src/driver/kvm.rs lines 185 to 197: the reply type is
translated, the slot of the VCPU of the event is taken (mem::replace with
None) and unwrapped (a panic when the slot is empty, and a Rust index panic
when the VCPU is out of range), and on success one kvmi.reply call is issued. -/
def Kvm.reply_event (event : Event) (reply_type : EventReplyType) (s : KvmState) :
    Except RtError KvmState × List BackendCall :=
  match reply_type with
  | .Continue =>
    if event.vcpu < s.vec_events.length then
      match slotGet s.vec_events event.vcpu with
      | some kvmi_event =>
        (.ok { s with vec_events := slotSet s.vec_events event.vcpu none },
         [BackendCall.reply kvmi_event KVMiEventReply.Continue])
      | none => (.error (.panicked "called unwrap on a None value"), [])
    else (.error (.panicked "index out of bounds"), [])

/-- kvm_regs of the kvmi collaborator: the general-purpose register block
returned by get_registers. -/
structure kvm_regs where
  rax : Nat
  rbx : Nat
  rcx : Nat
  rdx : Nat
  rsi : Nat
  rdi : Nat
  rsp : Nat
  rbp : Nat
  r8 : Nat
  r9 : Nat
  r10 : Nat
  r11 : Nat
  r12 : Nat
  r13 : Nat
  r14 : Nat
  r15 : Nat
  rip : Nat
  rflags : Nat
  deriving DecidableEq

/-- kvm_segment of the kvmi collaborator (the fields the data model uses). -/
structure kvm_segment where
  base : Nat
  limit : Nat
  selector : Nat
  deriving DecidableEq

/-- kvm_sregs of the kvmi collaborator: segment descriptors, control
registers and related special registers returned by get_registers. -/
structure kvm_sregs where
  cs : kvm_segment
  ds : kvm_segment
  es : kvm_segment
  fs : kvm_segment
  gs : kvm_segment
  ss : kvm_segment
  tr : kvm_segment
  ldt : kvm_segment
  cr0 : Nat
  cr2 : Nat
  cr3 : Nat
  cr4 : Nat
  cr8 : Nat
  efer : Nat
  apic_base : Nat
  deriving DecidableEq

/-- kvm_msrs of the kvmi collaborator: the model-specific register block
returned by get_registers (index and data pairs). -/
structure kvm_msrs where
  entries : List (Nat × Nat)
  deriving DecidableEq

/-- The struct literal built by Kvm::read_registers, src/driver/kvm.rs lines
70 to 93: exactly the fields that constructor populates (the driver file
targets an X86Registers vintage with an fs_base field; the api.rs
X86Registers above lists the full data model). -/
structure KvmX86Registers where
  rax : Nat
  rbx : Nat
  rcx : Nat
  rdx : Nat
  rsi : Nat
  rdi : Nat
  rsp : Nat
  rbp : Nat
  r8 : Nat
  r9 : Nat
  r10 : Nat
  r11 : Nat
  r12 : Nat
  r13 : Nat
  r14 : Nat
  r15 : Nat
  rip : Nat
  rflags : Nat
  cr0 : Nat
  cr3 : Nat
  cr4 : Nat
  fs_base : Nat
  deriving DecidableEq

/-- The Registers wrapper as returned by Kvm::read_registers. -/
inductive KvmRegisters where
  | X86 (regs : KvmX86Registers)
  deriving DecidableEq

/-- Kvm::read_registers, src/driver/kvm.rs lines 67 to 94: the three blocks
returned by kvmi.get_registers enter as parameters; the msrs block is bound
to an underscore in the source and discarded. -/
def Kvm.read_registers (regs : kvm_regs) (sregs : kvm_sregs) (_msrs : kvm_msrs) : KvmRegisters :=
  KvmRegisters.X86
    { rax := regs.rax
      rbx := regs.rbx
      rcx := regs.rcx
      rdx := regs.rdx
      rsi := regs.rsi
      rdi := regs.rdi
      rsp := regs.rsp
      rbp := regs.rbp
      r8 := regs.r8
      r9 := regs.r9
      r10 := regs.r10
      r11 := regs.r11
      r12 := regs.r12
      r13 := regs.r13
      r14 := regs.r14
      r15 := regs.r15
      rip := regs.rip
      rflags := regs.rflags
      cr0 := sregs.cr0
      cr3 := sregs.cr3
      cr4 := sregs.cr4
      fs_base := sregs.fs.base }

/-- The Drop impl for Kvm, src/driver/kvm.rs lines 200 to 210, over the list
of VCPUs 0 up to get_vcpu_count: for each VCPU a control_events(vcpu, Cr,
false) call is issued and its result unwrapped; an Err makes the destructor
panic (the Option String component carries the panic message; none means the
destructor ran to completion). -/
def Kvm.drop (vcpus : List Nat) (ctlResult : Nat → Except String Unit) :
    List BackendCall × Option String :=
  match vcpus with
  | [] => ([], none)
  | v :: rest =>
    match ctlResult v with
    | .ok _ =>
      (BackendCall.controlEvents v .Cr false :: (Kvm.drop rest ctlResult).1,
       (Kvm.drop rest ctlResult).2)
    | .error e => ([BackendCall.controlEvents v .Cr false], some e)

/-- The default body of the optional Introspectable trait methods,
src/api.rs lines 106 to 166: the unimplemented macro, which panics. -/
def Introspectable.listen_default (_timeout : Nat) : Except RtError (Option Event) :=
  .error (.panicked "not implemented")

/-- VBox from src/driver/virtualbox.rs lines 21 to 42: the VirtualBox driver
overrides get_vcpu_count, read_physical, get_max_physical_addr, pause and
resume only; listen is not overridden, so a call lands on the trait default. -/
def VBox.listen (timeout : Nat) : Except RtError (Option Event) :=
  Introspectable.listen_default timeout

/-- True when an operation outcome is a crash (a Rust panic), as opposed to a
returned error value or success. -/
def isCrash {α : Type} : Except RtError α → Bool
  | .error (.panicked _) => true
  | _ => false

/-- Number of kvmi.pause requests in a call trace. -/
def countPauseReqs : List BackendCall → Nat
  | [] => 0
  | .pauseReq :: rest => countPauseReqs rest + 1
  | _ :: rest => countPauseReqs rest

/-- The kvmi.reply calls of a call trace, in order, as event and reply pairs. -/
def replyCalls : List BackendCall → List (KVMiEvent × KVMiEventReply)
  | [] => []
  | .reply e r :: rest => (e, r) :: replyCalls rest
  | _ :: rest => replyCalls rest

/-- The call trace of a successful drain of the given acknowledgement events:
for each one, a wait followed by a Continue reply. -/
def drainCalls : List KVMiEvent → List BackendCall
  | [] => []
  | ev :: rest => BackendCall.waitAndPop 1000 :: BackendCall.reply ev .Continue :: drainCalls rest

lemma resumeDrain_acks (evs : List KVMiEvent) (rest : List (Except String (Option KVMiEvent)))
    (h : ∀ e ∈ evs, e.ev_type = KVMiEventType.PauseVCPU) :
    Kvm.resumeDrain evs.length (evs.map (fun e => Except.ok (some e)) ++ rest)
      = (.ok (), drainCalls evs) := by
  induction evs with
  | nil => rfl
  | cons e es ih =>
    have he : e.ev_type = KVMiEventType.PauseVCPU := h e (List.mem_cons_self e es)
    have hes : ∀ x ∈ es, x.ev_type = KVMiEventType.PauseVCPU :=
      fun x hx => h x (List.mem_cons_of_mem e hx)
    simp [Kvm.resumeDrain, drainCalls, he, ih hes]

lemma replyCalls_drainCalls (evs : List KVMiEvent) :
    replyCalls (drainCalls evs) = evs.map (fun e => (e, KVMiEventReply.Continue)) := by
  induction evs with
  | nil => rfl
  | cons e es ih => simp [drainCalls, replyCalls, ih]

/-- Claim C1: from the state reached by a successful pause on an N-VCPU
domain (counter N), resume repeatedly waits on the backend, and when the
backend answers with N pause-acknowledgement events, resume replies Continue
to each of them, consumes exactly N of them, returns success, and the final
counter is zero (the slots untouched). -/
theorem resume_drains_all_acks (n : Nat) (evs : List KVMiEvent)
    (rest : List (Except String (Option KVMiEvent))) (s : KvmState)
    (hn : s.expect_pause_ev = n) (hlen : evs.length = n)
    (hack : ∀ e ∈ evs, e.ev_type = KVMiEventType.PauseVCPU) :
    Kvm.resume (evs.map (fun e => Except.ok (some e)) ++ rest) s
      = (.ok { s with expect_pause_ev := 0 }, drainCalls evs) ∧
    replyCalls (drainCalls evs) = evs.map (fun e => (e, KVMiEventReply.Continue)) ∧
    (replyCalls (drainCalls evs)).length = n := by
  refine ⟨?_, replyCalls_drainCalls evs, ?_⟩
  · unfold Kvm.resume
    by_cases h0 : s.expect_pause_ev = 0
    · have hevs : evs = [] := List.length_eq_zero.mp (by omega)
      subst hevs
      simp [h0, drainCalls]
      cases s with
      | mk a b => simp_all
    · rw [if_neg h0, hn, ← hlen, resumeDrain_acks evs rest hack]
  · rw [replyCalls_drainCalls, List.length_map, hlen]

/-- Claim C1 witness: a concrete two-VCPU drain. -/
theorem resume_drains_all_acks_witness :
    Kvm.resume [Except.ok (some ⟨0, KVMiEventType.PauseVCPU⟩),
                Except.ok (some ⟨1, KVMiEventType.PauseVCPU⟩)]
        { expect_pause_ev := 2, vec_events := [none, none] }
      = (.ok { expect_pause_ev := 0, vec_events := [none, none] },
         drainCalls [⟨0, KVMiEventType.PauseVCPU⟩, ⟨1, KVMiEventType.PauseVCPU⟩]) ∧
    replyCalls (drainCalls [⟨0, KVMiEventType.PauseVCPU⟩, ⟨1, KVMiEventType.PauseVCPU⟩])
      = [(⟨0, KVMiEventType.PauseVCPU⟩, KVMiEventReply.Continue),
         (⟨1, KVMiEventType.PauseVCPU⟩, KVMiEventReply.Continue)] ∧
    (replyCalls (drainCalls [⟨0, KVMiEventType.PauseVCPU⟩, ⟨1, KVMiEventType.PauseVCPU⟩])).length = 2 :=
  resume_drains_all_acks 2
    [⟨0, KVMiEventType.PauseVCPU⟩, ⟨1, KVMiEventType.PauseVCPU⟩] []
    { expect_pause_ev := 2, vec_events := [none, none] } rfl rfl (by decide)

/-- Claim C2 (amended): pause while the counter is positive is a no-op with
no backend call; from counter zero on a domain with at least one VCPU, two
pause calls in a row issue exactly one backend pause request; resume with
counter zero is a no-op success with no backend call. -/
theorem pause_idempotent_resume_noop (vc : Nat) (s : KvmState)
    (ws : List (Except String (Option KVMiEvent))) :
    (0 < s.expect_pause_ev → Kvm.pause vc s = (s, [])) ∧
    (s.expect_pause_ev = 0 → 0 < vc →
      countPauseReqs ((Kvm.pause vc s).2 ++ (Kvm.pause vc (Kvm.pause vc s).1).2) = 1) ∧
    (s.expect_pause_ev = 0 → Kvm.resume ws s = (.ok s, [])) := by
  refine ⟨fun h => ?_, fun h0 hvc => ?_, fun h0 => ?_⟩
  · simp [Kvm.pause, h]
  · simp [Kvm.pause, h0, hvc, countPauseReqs]
  · simp [Kvm.resume, h0]

/-- Claim C2 witness: concrete double pause on a two-VCPU domain. -/
theorem pause_idempotent_witness :
    countPauseReqs ((Kvm.pause 2 ⟨0, [none, none]⟩).2
        ++ (Kvm.pause 2 (Kvm.pause 2 ⟨0, [none, none]⟩).1).2) = 1 :=
  (pause_idempotent_resume_noop 2 ⟨0, [none, none]⟩ []).2.1 rfl (by decide)

/-- Claim C2 counterexample: on a domain whose backend reports zero VCPUs,
the first pause leaves the counter at zero, so a second pause in a row
re-issues the backend pause request: two requests, not one. -/
theorem pause_twice_two_requests_zero_vcpu :
    countPauseReqs ((Kvm.pause 0 ⟨0, []⟩).2
        ++ (Kvm.pause 0 (Kvm.pause 0 ⟨0, []⟩).1).2) = 2 := by decide

lemma replyCalls_nil : replyCalls [] = [] := rfl

lemma replyCalls_wait (t : Nat) (l : List BackendCall) :
    replyCalls (BackendCall.waitAndPop t :: l) = replyCalls l := rfl

lemma replyCalls_reply (e : KVMiEvent) (r : KVMiEventReply) (l : List BackendCall) :
    replyCalls (BackendCall.reply e r :: l) = (e, r) :: replyCalls l := rfl

lemma resumeDrain_replies (n : Nat) (ws : List (Except String (Option KVMiEvent)))
    (res : Except RtError Unit) (calls : List BackendCall)
    (h : Kvm.resumeDrain n ws = (res, calls)) :
    ∀ p ∈ replyCalls calls, p.1.ev_type = KVMiEventType.PauseVCPU ∧ p.2 = KVMiEventReply.Continue := by
  induction n generalizing ws res calls with
  | zero =>
    simp only [Kvm.resumeDrain] at h
    cases h
    simp [replyCalls_nil]
  | succ m ih =>
    rw [Kvm.resumeDrain] at h
    split at h
    · cases h
      simp [replyCalls_wait, replyCalls_nil]
    · cases h
      simp [replyCalls_wait, replyCalls_nil]
    · rename_i kv
      split at h
      · rename_i hkv
        cases h
        intro p hp
        rw [replyCalls_wait, replyCalls_reply] at hp
        rcases List.mem_cons.mp hp with hp | hp
        · subst hp
          exact ⟨hkv, rfl⟩
        · exact ih ws.tail (Kvm.resumeDrain m ws.tail).1 (Kvm.resumeDrain m ws.tail).2 rfl p hp
      · cases h
        simp [replyCalls_wait, replyCalls_nil]

/-- Claim C3: a backend pause-acknowledgement event is never surfaced by
listen.  When the wait answer handed to listen is a PauseVCPU event, listen
panics instead of returning it; every Event that a successful listen does
return originates from a native Cr event, carrying its VCPU and translated
kind; and every reply that resume issues while draining is a Continue to a
PauseVCPU event, consumed internally.  Since each listen result depends only
on its own wait answer, this covers every sequence of pause, resume and
listen calls. -/
theorem pause_acks_never_surfaced (t : Nat) (w : Except String (Option KVMiEvent)) (s : KvmState) :
    (∀ kv : KVMiEvent, w = .ok (some kv) → kv.ev_type = KVMiEventType.PauseVCPU →
      ∃ m, (Kvm.listen t w s).1 = .error (.panicked m)) ∧
    (∀ s2 e calls, Kvm.listen t w s = (.ok (s2, some e), calls) →
      ∃ kv ct nv ov, w = .ok (some kv) ∧ kv.ev_type = KVMiEventType.Cr ct nv ov ∧
        e = { vcpu := kv.vcpu, kind := EventType.Cr (kvmiCrToMicro ct) nv ov }) ∧
    (∀ ws res calls, Kvm.resume ws s = (res, calls) →
      ∀ p ∈ replyCalls calls,
        p.1.ev_type = KVMiEventType.PauseVCPU ∧ p.2 = KVMiEventReply.Continue) := by
  refine ⟨?_, ?_, ?_⟩
  · intro kv hw hkv
    subst hw
    simp only [Kvm.listen, hkv]
    exact ⟨_, rfl⟩
  · intro s2 e calls h
    rw [Kvm.listen.eq_def] at h
    split at h
    · simp at h
    · simp at h
    · rename_i kv
      split at h
      · rename_i ct nv ov hkv
        split at h
        · simp only [Prod.mk.injEq, Except.ok.injEq, Option.some.injEq] at h
          obtain ⟨⟨-, he⟩, -⟩ := h
          exact ⟨kv, ct, nv, ov, rfl, hkv, he.symm⟩
        · simp at h
      · simp at h
      · simp at h
  · intro ws res calls h
    rw [Kvm.resume] at h
    by_cases h0 : s.expect_pause_ev = 0
    · rw [if_pos h0] at h
      cases h
      simp [replyCalls_nil]
    · rw [if_neg h0] at h
      have hd := resumeDrain_replies s.expect_pause_ev ws
        (Kvm.resumeDrain s.expect_pause_ev ws).1 (Kvm.resumeDrain s.expect_pause_ev ws).2 rfl
      split at h
      · cases h
        exact hd
      · cases h
        exact hd

/-- Claim C3 witness: a concrete PauseVCPU wait answer makes listen panic. -/
theorem pause_acks_never_surfaced_witness :
    ∃ m, (Kvm.listen 1000 (Except.ok (some ⟨0, KVMiEventType.PauseVCPU⟩)) ⟨0, [none]⟩).1
      = .error (.panicked m) :=
  (pause_acks_never_surfaced 1000 (Except.ok (some ⟨0, KVMiEventType.PauseVCPU⟩))
    ⟨0, [none]⟩).1 ⟨0, KVMiEventType.PauseVCPU⟩ rfl rfl

lemma slotGet_slotSet_self (l : List (Option KVMiEvent)) (v : Nat) (a : Option KVMiEvent)
    (h : v < l.length) : slotGet (slotSet l v a) v = a := by
  induction l generalizing v with
  | nil => exact absurd h (by simp)
  | cons x xs ih =>
    cases v with
    | zero => rfl
    | succ m =>
      exact ih m (by simpa using h)

lemma slotGet_slotSet_ne (l : List (Option KVMiEvent)) (v w : Nat) (a : Option KVMiEvent)
    (h : w ≠ v) : slotGet (slotSet l v a) w = slotGet l w := by
  induction l generalizing v w with
  | nil => rfl
  | cons x xs ih =>
    cases v with
    | zero =>
      cases w with
      | zero => exact absurd rfl h
      | succ mw => rfl
    | succ mv =>
      cases w with
      | zero => rfl
      | succ mw => exact ih mv mw (fun hh => h (by rw [hh]))

/-- Claim C4, stated as the step form of the occupancy invariant: a
successful listen that returns an event occupies exactly the slot of that
VCPU and leaves every other slot and the counter alone (a second listen for
an already occupied VCPU overwrites that one slot, so the bookkeeping never
holds two in-flight events for a VCPU); a listen returning no event changes
nothing; a successful reply_event requires the slot of its VCPU to have been
occupied, empties exactly it, and leaves the others alone; a reply_event on
an unoccupied slot never succeeds; pause and resume never touch the slots.
Together these place each occupied interval exactly between the successful
listen for that VCPU and the matching reply_event. -/
theorem pending_slot_protocol (t vc : Nat) (w : Except String (Option KVMiEvent))
    (e : Event) (r : EventReplyType) (s : KvmState) :
    (∀ s2 ev calls, Kvm.listen t w s = (.ok (s2, some ev), calls) →
      slotOccupied s2 ev.vcpu = true ∧ s2.expect_pause_ev = s.expect_pause_ev ∧
      ∀ v, v ≠ ev.vcpu → slotGet s2.vec_events v = slotGet s.vec_events v) ∧
    (∀ s2 calls, Kvm.listen t w s = (.ok (s2, none), calls) → s2 = s) ∧
    (∀ s2 calls, Kvm.reply_event e r s = (.ok s2, calls) →
      slotOccupied s e.vcpu = true ∧ slotOccupied s2 e.vcpu = false ∧
      ∀ v, v ≠ e.vcpu → slotGet s2.vec_events v = slotGet s.vec_events v) ∧
    (slotOccupied s e.vcpu = false → ∀ s2 calls, Kvm.reply_event e r s ≠ (.ok s2, calls)) ∧
    ((Kvm.pause vc s).1.vec_events = s.vec_events) ∧
    (∀ ws res calls, Kvm.resume ws s = (res, calls) →
      ∀ s2, res = .ok s2 → s2.vec_events = s.vec_events) := by
  refine ⟨?_, ?_, ?_, ?_, ?_, ?_⟩
  · intro s2 ev calls h
    rw [Kvm.listen.eq_def] at h
    split at h
    · simp at h
    · simp at h
    · rename_i kv
      split at h
      · rename_i ct nv ov hkv
        split at h
        · rename_i hb
          simp only [Prod.mk.injEq, Except.ok.injEq, Option.some.injEq] at h
          obtain ⟨⟨hs2, hev⟩, -⟩ := h
          subst hs2
          subst hev
          refine ⟨?_, rfl, ?_⟩
          · simp [slotOccupied, slotGet_slotSet_self s.vec_events kv.vcpu _ hb]
          · intro v hv
            exact slotGet_slotSet_ne s.vec_events kv.vcpu v _ hv
        · simp at h
      · simp at h
      · simp at h
  · intro s2 calls h
    rw [Kvm.listen.eq_def] at h
    split at h
    · simp at h
    · simp only [Prod.mk.injEq, Except.ok.injEq] at h
      exact h.1.1.symm
    · rename_i kv
      split at h
      · split at h
        · simp at h
        · simp at h
      · simp at h
      · simp at h
  · intro s2 calls h
    rw [Kvm.reply_event.eq_def] at h
    split at h
    split at h
    · rename_i hb
      split at h
      · rename_i kv hsg
        simp only [Prod.mk.injEq, Except.ok.injEq] at h
        obtain ⟨hs2, -⟩ := h
        subst hs2
        refine ⟨?_, ?_, ?_⟩
        · simp [slotOccupied, hsg]
        · simp [slotOccupied, slotGet_slotSet_self s.vec_events e.vcpu _ hb]
        · intro v hv
          exact slotGet_slotSet_ne s.vec_events e.vcpu v _ hv
      · simp at h
    · simp at h
  · intro hocc s2 calls h
    rw [Kvm.reply_event.eq_def] at h
    split at h
    split at h
    · rename_i hb
      split at h
      · rename_i kv hsg
        rw [slotOccupied, hsg] at hocc
        simp at hocc
      · simp at h
    · simp at h
  · unfold Kvm.pause
    split
    · rfl
    · rfl
  · intro ws res calls h s2 hres
    rw [Kvm.resume] at h
    by_cases h0 : s.expect_pause_ev = 0
    · rw [if_pos h0] at h
      cases h
      cases hres
      rfl
    · rw [if_neg h0] at h
      split at h
      · cases h
        cases hres
        rfl
      · cases h
        simp at hres

/-- Claim C4 witness: a concrete CR3 event for VCPU 0 occupies slot 0 and
leaves the rest of the bookkeeping alone. -/
theorem pending_slot_protocol_witness :
    slotOccupied ⟨0, [some ⟨0, KVMiEventType.Cr KVMiCr.Cr3 5 4⟩]⟩ 0 = true ∧
    (⟨0, [some ⟨0, KVMiEventType.Cr KVMiCr.Cr3 5 4⟩]⟩ : KvmState).expect_pause_ev
      = (⟨0, [none]⟩ : KvmState).expect_pause_ev ∧
    ∀ v, v ≠ 0 →
      slotGet (⟨0, [some ⟨0, KVMiEventType.Cr KVMiCr.Cr3 5 4⟩]⟩ : KvmState).vec_events v
        = slotGet (⟨0, [none]⟩ : KvmState).vec_events v :=
  (pending_slot_protocol 10 1 (Except.ok (some ⟨0, KVMiEventType.Cr KVMiCr.Cr3 5 4⟩))
      ⟨0, EventType.Cr CrType.Cr3 5 4⟩ .Continue ⟨0, [none]⟩).1
    ⟨0, [some ⟨0, KVMiEventType.Cr KVMiCr.Cr3 5 4⟩]⟩
    ⟨0, EventType.Cr CrType.Cr3 5 4⟩
    [BackendCall.waitAndPop 10] rfl

/-- Claim C5: reply_event for a VCPU whose pending-event slot is unoccupied
fails with the fatal protocol-desynchronization panic of the unwrap (reported,
never a silent success), and issues no backend call at all; in particular no
reply reaches the backend. -/
theorem reply_event_protocol_desync (e : Event) (r : EventReplyType) (s : KvmState)
    (h : slotOccupied s e.vcpu = false) :
    (∃ m, Kvm.reply_event e r s = (.error (.panicked m), [])) ∧
    (∀ s2 calls, Kvm.reply_event e r s ≠ (.ok s2, calls)) ∧
    replyCalls (Kvm.reply_event e r s).2 = [] := by
  have hnone : slotGet s.vec_events e.vcpu = none ∨ ¬ e.vcpu < s.vec_events.length := by
    rcases hs : slotGet s.vec_events e.vcpu with _ | kv
    · exact Or.inl rfl
    · rw [slotOccupied, hs] at h
      simp at h
  rcases r with _
  rw [Kvm.reply_event.eq_def]
  by_cases hb : e.vcpu < s.vec_events.length
  · rcases hnone with hn | hn
    · simp only [if_pos hb, hn]
      exact ⟨⟨_, rfl⟩, by simp, rfl⟩
    · exact absurd hb hn
  · simp only [if_neg hb]
    exact ⟨⟨_, rfl⟩, by simp, rfl⟩

/-- Claim C5 witness: a concrete reply with the single slot empty. -/
theorem reply_event_protocol_desync_witness :
    (∃ m, Kvm.reply_event ⟨0, EventType.Cr CrType.Cr0 1 2⟩ .Continue ⟨0, [none]⟩
      = (.error (.panicked m), [])) ∧
    (∀ s2 calls, Kvm.reply_event ⟨0, EventType.Cr CrType.Cr0 1 2⟩ .Continue ⟨0, [none]⟩
      ≠ (.ok s2, calls)) ∧
    replyCalls (Kvm.reply_event ⟨0, EventType.Cr CrType.Cr0 1 2⟩ .Continue ⟨0, [none]⟩).2 = [] :=
  reply_event_protocol_desync ⟨0, EventType.Cr CrType.Cr0 1 2⟩ .Continue ⟨0, [none]⟩ rfl

/-- Claim C6 counterexample: invoking listen on the VirtualBox backend, which
does not implement it, crashes (the trait default panics with the
unimplemented macro) instead of returning a distinct unsupported-operation
error value. -/
theorem vbox_listen_crashes : isCrash (VBox.listen 1000) = true := rfl

/-- Claim C6 (amended): a capability operation a backend does not implement
falls to the Introspectable trait default, which panics with the message of
the unimplemented macro: a crash, not a distinct unsupported-by-this-backend
error value, so a caller gets no value to branch on. -/
theorem vbox_unimplemented_ops_panic :
    ∀ t : Nat, VBox.listen t = .error (.panicked "not implemented") ∧
      isCrash (VBox.listen t) = true ∧
      ∀ res : Option Event, VBox.listen t ≠ .ok res := by
  intro t
  refine ⟨rfl, rfl, ?_⟩
  intro res h
  cases h

lemma drop_all_ok (l : List Nat) (f : Nat → Except String Unit)
    (h : ∀ v ∈ l, f v = .ok ()) :
    Kvm.drop l f = (l.map (fun v => BackendCall.controlEvents v .Cr false), none) := by
  induction l with
  | nil => rfl
  | cons v rest ih =>
    have hv := h v (List.mem_cons_self v rest)
    have hrest := ih (fun x hx => h x (List.mem_cons_of_mem v hx))
    simp [Kvm.drop, hv, hrest]

/-- Claim C7 (amended): when every disable call succeeds, the destructor of
the Kvm backend disables control-register event interception for every VCPU
in order; but the cleanup is not tolerant of failure: as soon as one
control_events call fails, the destructor unwraps the error and panics
(fatal), skipping the remaining VCPUs. -/
theorem kvm_drop_cleanup (n : Nat) (f : Nat → Except String Unit) :
    ((∀ v, v < n → f v = .ok ()) →
      Kvm.drop (List.range n) f
        = ((List.range n).map (fun v => BackendCall.controlEvents v .Cr false), none)) ∧
    (∀ m, 0 < n → f 0 = .error m →
      Kvm.drop (List.range n) f = ([BackendCall.controlEvents 0 .Cr false], some m)) := by
  constructor
  · intro h
    exact drop_all_ok (List.range n) f (fun v hv => h v (List.mem_range.mp hv))
  · intro m hn hf
    obtain ⟨k, rfl⟩ : ∃ k, n = k + 1 := ⟨n - 1, by omega⟩
    rw [List.range_succ_eq_map]
    simp [Kvm.drop, hf]

/-- Claim C7 witness: a two-VCPU destruction with both disables succeeding. -/
theorem kvm_drop_cleanup_witness :
    Kvm.drop (List.range 2) (fun _ => Except.ok ())
      = ((List.range 2).map (fun v => BackendCall.controlEvents v .Cr false), none) :=
  (kvm_drop_cleanup 2 (fun _ => Except.ok ())).1 (fun _ _ => rfl)

/-- Claim C7 counterexample: when the guest is already gone and the disable
call fails, the destructor panics (the some component is the panic) instead
of tolerating the failure as best effort. -/
theorem kvm_drop_failure_fatal :
    (Kvm.drop (List.range 1) (fun _ => Except.error "guest already gone")).2
      = some "guest already gone" := rfl

def regs0 : kvm_regs :=
  { rax := 0, rbx := 0, rcx := 0, rdx := 0, rsi := 0, rdi := 0, rsp := 0, rbp := 0,
    r8 := 0, r9 := 0, r10 := 0, r11 := 0, r12 := 0, r13 := 0, r14 := 0, r15 := 0,
    rip := 0, rflags := 0 }

def seg0 : kvm_segment := { base := 0, limit := 0, selector := 0 }

def sregs0 : kvm_sregs :=
  { cs := seg0, ds := seg0, es := seg0, fs := seg0, gs := seg0, ss := seg0,
    tr := seg0, ldt := seg0, cr0 := 0, cr2 := 0, cr3 := 0, cr4 := 0, cr8 := 0,
    efer := 0, apic_base := 0 }

/-- Claim C8 counterexample: two backend register states that differ in CR2,
in the CS segment descriptor, in the APIC base and in the MSR block yield the
same snapshot, so read_registers does not populate those from the backend
register state (the MSR block is discarded outright). -/
theorem read_registers_misses_cr2_segments_msrs :
    Kvm.read_registers regs0
        { sregs0 with cr2 := 0x1234, cs := ⟨77, 1, 2⟩, apic_base := 99 }
        ⟨[(0x174, 55)]⟩
      = Kvm.read_registers regs0 sregs0 ⟨[]⟩ ∧
    ({ sregs0 with cr2 := 0x1234 } : kvm_sregs).cr2 ≠ sregs0.cr2 :=
  ⟨rfl, by decide⟩

/-- Claim C8 (amended): a successful read_registers populates exactly the 16
general-purpose registers, the instruction pointer and the flags from the
backend general-purpose block, CR0, CR3 and CR4 and the FS segment base from
the backend special-register block; no other part of the backend state
(CR2, the remaining segment descriptors, the MSR block) reaches the
snapshot. -/
theorem read_registers_population (r : kvm_regs) (s s2 : kvm_sregs) (m m2 : kvm_msrs) :
    Kvm.read_registers r s m = KvmRegisters.X86
      { rax := r.rax, rbx := r.rbx, rcx := r.rcx, rdx := r.rdx, rsi := r.rsi, rdi := r.rdi,
        rsp := r.rsp, rbp := r.rbp, r8 := r.r8, r9 := r.r9, r10 := r.r10, r11 := r.r11,
        r12 := r.r12, r13 := r.r13, r14 := r.r14, r15 := r.r15, rip := r.rip,
        rflags := r.rflags, cr0 := s.cr0, cr3 := s.cr3, cr4 := s.cr4, fs_base := s.fs.base } ∧
    (s.cr0 = s2.cr0 → s.cr3 = s2.cr3 → s.cr4 = s2.cr4 → s.fs = s2.fs →
      Kvm.read_registers r s m = Kvm.read_registers r s2 m2) := by
  refine ⟨rfl, fun h0 h3 h4 hfs => ?_⟩
  simp [Kvm.read_registers, h0, h3, h4, hfs]

/-- Claim C8 witness: the MSR block does not influence the snapshot. -/
theorem read_registers_population_witness :
    Kvm.read_registers regs0 sregs0 ⟨[(1, 2)]⟩ = Kvm.read_registers regs0 sregs0 ⟨[]⟩ :=
  (read_registers_population regs0 sregs0 sregs0 ⟨[(1, 2)]⟩ ⟨[]⟩).2 rfl rfl rfl rfl

lemma slotGet_replicate (n v : Nat) : slotGet (List.replicate n none) v = none := by
  induction n generalizing v with
  | zero => rfl
  | succ m ih =>
    cases v with
    | zero => rfl
    | succ k => exact ih k

/-- Claim C9: a successful construction of the KVM backend yields the initial
coordinator state: pause counter zero, one empty pending-event slot per VCPU
(sized from the VCPU count), and a control-register event interception enable
call already issued for every VCPU of the domain, before any caller
operation. -/
theorem kvm_new_initial (res : Except String Unit) (n : Nat) (h : res = .ok ()) :
    ∃ s calls, Kvm.new res n = (.ok s, calls) ∧
      s.expect_pause_ev = 0 ∧
      s.vec_events.length = n ∧
      (∀ v, v < n → slotGet s.vec_events v = none) ∧
      calls = (List.range n).map (fun v => BackendCall.controlEvents v .Cr true) ∧
      (∀ v, v < n → BackendCall.controlEvents v .Cr true ∈ calls) := by
  subst h
  refine ⟨_, _, rfl, rfl, by simp, fun v _ => slotGet_replicate n v, rfl, ?_⟩
  intro v hv
  exact List.mem_map.mpr ⟨v, List.mem_range.mpr hv, rfl⟩

/-- Claim C9 witness: a concrete two-VCPU construction. -/
theorem kvm_new_initial_witness :
    ∃ s calls, Kvm.new (Except.ok ()) 2 = (.ok s, calls) ∧
      s.expect_pause_ev = 0 ∧
      s.vec_events.length = 2 ∧
      (∀ v, v < 2 → slotGet s.vec_events v = none) ∧
      calls = (List.range 2).map (fun v => BackendCall.controlEvents v .Cr true) ∧
      (∀ v, v < 2 → BackendCall.controlEvents v .Cr true ∈ calls) :=
  kvm_new_initial (Except.ok ()) 2 rfl

/-- Claim C10: the control-register translation of the KVM backend is partial
over the public CrType: toggle_intercept maps Cr0, Cr3 and Cr4 to exactly one
control_cr backend call each; for Cr2, a legal value of the public type with
no match arm in the source, the total embedding takes the unreachable branch,
an error with no backend call; and the reverse translation used by listen
never produces Cr2 and sends the three native tags to their namesakes. -/
theorem toggle_intercept_cr_gap (v : Nat) (en : Bool) :
    Kvm.toggle_intercept v (.Cr .Cr0) en = (.ok (), [BackendCall.controlCr v .Cr0 en]) ∧
    Kvm.toggle_intercept v (.Cr .Cr3) en = (.ok (), [BackendCall.controlCr v .Cr3 en]) ∧
    Kvm.toggle_intercept v (.Cr .Cr4) en = (.ok (), [BackendCall.controlCr v .Cr4 en]) ∧
    (∃ m, Kvm.toggle_intercept v (.Cr .Cr2) en = (.error (.panicked m), [])) ∧
    (∀ res calls, Kvm.toggle_intercept v (.Cr .Cr2) en = (res, calls) → calls = []) ∧
    (∀ k : KVMiCr, kvmiCrToMicro k ≠ CrType.Cr2) ∧
    kvmiCrToMicro .Cr0 = CrType.Cr0 ∧ kvmiCrToMicro .Cr3 = CrType.Cr3 ∧
    kvmiCrToMicro .Cr4 = CrType.Cr4 := by
  refine ⟨rfl, rfl, rfl, ⟨_, rfl⟩, ?_, ?_, rfl, rfl, rfl⟩
  · intro res calls h
    exact (congrArg Prod.snd h).symm
  · intro k
    cases k <;> simp [kvmiCrToMicro]

/-- Claim C10 witness: the Cr0 translation at a concrete input, and the
Cr2 branch issuing no backend call there. -/
theorem toggle_intercept_cr_gap_witness :
    Kvm.toggle_intercept 0 (.Cr .Cr0) true = (.ok (), [BackendCall.controlCr 0 .Cr0 true]) ∧
    ([] : List BackendCall) = [] :=
  ⟨(toggle_intercept_cr_gap 0 true).1,
   (toggle_intercept_cr_gap 0 true).2.2.2.2.1 (.error (.panicked "no match arm for CrType Cr2"))
     [] rfl⟩
